/-
Verification of the pvs_tracker dashboard (src/main.py) against its
natural-language specification.

Shallow embedding conventions:
* A supply observation (`Obs`) carries its timestamp as an integer number
  of microseconds (a Python `datetime` is an exact integer count of
  microseconds, and comparison / subtraction of datetimes and timedeltas is
  exactly integer comparison / subtraction at that resolution;
  `timedelta(days=d)` becomes `d * 86400000000`).  Supply values are
  rationals (the code works with Python/NumPy numbers; the arithmetic
  involved is exact here).
* The MongoDB collection is modelled by `MongoStore`: either the connection
  attempt raises (`connFail`, the `except` branch of
  `get_mongodb_connection`, src/main.py lines 14-21), or the store is
  reachable and holds a list of documents together with a flag saying
  whether `insert_one` succeeds (`store docs insertOk`).
* Streamlit banners (`st.error`, `st.warning`) are modelled as a list of
  message strings returned alongside the result.
* A Python function that can raise is modelled in `Except String`; a Python
  function that ends without `return` yields `none` in `Option`.
* `datetime` values on the write path are modelled structurally
  (`PyDateTime`) together with `isoformat`, because claims C2 and C10 are
  about the serialized representation.
-/
import Mathlib

/-- One row of the supply dataframe: `time` in microseconds (integer), and
`total_supply` (src/main.py lines 30-33 project exactly these two fields). -/
structure Obs where
  time : ℤ
  total_supply : ℚ
deriving DecidableEq

/-- The four percentage-change metrics returned by `calculate_metrics`
(src/main.py lines 95-100: keys "24h", "7d", "30d", "total"). -/
structure Metrics where
  h24 : ℚ
  d7 : ℚ
  d30 : ℚ
  total : ℚ
deriving DecidableEq

/-- `timedelta(days=d)`, as an exact count of microseconds. -/
def timedelta_days (d : ℤ) : ℤ :=
  d * 86400000000

/-- One of the three window blocks of `calculate_metrics`
(src/main.py lines 64-70, 72-78, 80-86): filter the dataframe to rows with
`time >= latest_time - w`, return 0 unless the filtered frame has at least
2 rows, otherwise take `iloc[0]` as baseline with the `!= 0` guard. -/
def window_change (df : List Obs) (latest_supply : ℚ) (latest_time w : ℤ) : ℚ :=
  let wdf := df.filter fun p => latest_time - w ≤ p.time
  if 2 ≤ wdf.length then
    match wdf.head? with
    | none => 0
    | some first => if first.total_supply ≠ 0 then
        (latest_supply - first.total_supply) / first.total_supply * 100
      else 0
  else 0

/-- `calculate_metrics` (src/main.py lines 51-100).  The guard on line 52 is
`df.empty or len(df) < 2`, i.e. `length < 2`; `latest` is `df.iloc[-1]`
(line 60, `getLast?`); the three windows use `timedelta` of 1, 7 and 30
days; the total change (lines 88-93) takes `df.iloc[0]` as baseline. -/
def calculate_metrics (df : List Obs) : Metrics :=
  if df.length < 2 then ⟨0, 0, 0, 0⟩
  else
    match df.getLast? with
    | none => ⟨0, 0, 0, 0⟩
    | some latest =>
      let latest_supply := latest.total_supply
      let latest_time := latest.time
      let day_change := window_change df latest_supply latest_time (timedelta_days 1)
      let week_change := window_change df latest_supply latest_time (timedelta_days 7)
      let month_change := window_change df latest_supply latest_time (timedelta_days 30)
      let total_change :=
        if 1 < df.length then
          match df.head? with
          | none => 0
          | some first => if first.total_supply ≠ 0 then
              (latest_supply - first.total_supply) / first.total_supply * 100
            else 0
        else 0
      ⟨day_change, week_change, month_change, total_change⟩

/-- Python division, which raises `ZeroDivisionError` on a zero divisor. -/
def pydiv (a b : ℚ) : Except String ℚ :=
  if b = 0 then Except.error "ZeroDivisionError: division by zero"
  else Except.ok (a / b)

/-- Exception-aware rendering of a window block: identical to
`window_change` except that the division is the fallible `pydiv`, so that a
division by zero would surface as an `Except.error`. -/
def window_changeE (df : List Obs) (latest_supply : ℚ) (latest_time w : ℤ) :
    Except String ℚ :=
  let wdf := df.filter fun p => latest_time - w ≤ p.time
  if 2 ≤ wdf.length then
    match wdf.head? with
    | none => Except.ok 0
    | some first => if first.total_supply ≠ 0 then
        Except.map (fun q => q * 100)
          (pydiv (latest_supply - first.total_supply) first.total_supply)
      else Except.ok 0
  else Except.ok 0

/-- Exception-aware rendering of `calculate_metrics`: every division is the
fallible `pydiv`.  Claim C6 proves this never produces `Except.error`. -/
def calculate_metricsE (df : List Obs) : Except String Metrics :=
  if df.length < 2 then Except.ok ⟨0, 0, 0, 0⟩
  else
    match df.getLast? with
    | none => Except.ok ⟨0, 0, 0, 0⟩
    | some latest => do
      let day_change ← window_changeE df latest.total_supply latest.time (timedelta_days 1)
      let week_change ← window_changeE df latest.total_supply latest.time (timedelta_days 7)
      let month_change ← window_changeE df latest.total_supply latest.time (timedelta_days 30)
      let total_change ←
        (if 1 < df.length then
          match df.head? with
          | none => Except.ok (0 : ℚ)
          | some first => if first.total_supply ≠ 0 then
              Except.map (fun q => q * 100)
                (pydiv (latest.total_supply - first.total_supply)
                  first.total_supply)
            else Except.ok 0
        else Except.ok 0)
      return ⟨day_change, week_change, month_change, total_change⟩

/-- Defined from the specification's words (spec §4.2), for the refinement
claim C1: `window_df` = all series points with `timestamp >= cutoff` where
`cutoff = latest_time - W` and `latest` is the last point of the series. -/
def window_df (df : List Obs) (w : ℤ) : List Obs :=
  match df.getLast? with
  | none => []
  | some latest => df.filter fun p => latest.time - w ≤ p.time

/-- Defined from the specification's words (spec §4.2), for the refinement
claim C1: if `window_df` has fewer than 2 points the change is 0, otherwise
the baseline is the earliest surviving row of `window_df` and the change is
`(latest.total_supply - baseline.total_supply) / baseline.total_supply *
100`, or 0 when the baseline supply is 0. -/
def spec_window_change (df : List Obs) (w : ℤ) : ℚ :=
  match df.getLast? with
  | none => 0
  | some latest =>
    if (window_df df w).length < 2 then 0
    else
      match (window_df df w).head? with
      | none => 0
      | some baseline =>
        if baseline.total_supply = 0 then 0
        else (latest.total_supply - baseline.total_supply)
          / baseline.total_supply * 100

/-- Boolean check that a list of observations is time-ascending
(consecutive timestamps are non-decreasing). -/
def timeAscending : List Obs → Bool
  | [] => true
  | [_] => true
  | a :: b :: rest => a.time ≤ b.time && timeAscending (b :: rest)

/-- The state of the MongoDB side of the system: either the `MongoClient`
construction raises (the `except` branch of `get_mongodb_connection`), or a
collection with `docs` is available and `insert_one` succeeds iff
`insertOk`. -/
inductive MongoStore where
  | connFail : MongoStore
  | store : List Obs → Bool → MongoStore

/-- `get_mongodb_connection` (src/main.py lines 10-21): on failure it shows
`st.error("Failed to connect to MongoDB: ...")` and returns `None`;
otherwise it returns the collection handle. -/
def get_mongodb_connection (st : MongoStore) :
    Option (List Obs × Bool) × List String :=
  match st with
  | MongoStore.connFail => (none, ["Failed to connect to MongoDB"])
  | MongoStore.store docs insertOk => (some (docs, insertOk), [])

/-- `get_supply_data` (src/main.py lines 24-34).  When
`get_mongodb_connection` returned `None`, line 26 evaluates
`collection.find()` on `None`, which raises `AttributeError` (there is no
`try` here, so the exception propagates).  Otherwise the rows are parsed
and sorted by `time` (modelled by insertion sort: any comparison sort
realizes `df.sort_values` for the sortedness claims), and the two columns
are projected. -/
def get_supply_data (st : MongoStore) : Except String (List Obs) × List String :=
  match get_mongodb_connection st with
  | (none, msgs) =>
    (Except.error "AttributeError: NoneType object has no attribute find", msgs)
  | (some conn, msgs) =>
    match conn.1 with
    | [] => (Except.ok [], msgs)
    | docs => (Except.ok (List.insertionSort (fun a b => a.time ≤ b.time) docs), msgs)

/-- A Python `datetime` value, with microsecond precision. -/
structure PyDateTime where
  year : Nat
  month : Nat
  day : Nat
  hour : Nat
  minute : Nat
  second : Nat
  microsecond : Nat
deriving DecidableEq

/-- `dt.replace(microsecond=0)` (src/main.py line 39). -/
def replaceMicrosecond0 (t : PyDateTime) : PyDateTime :=
  { t with microsecond := 0 }

/-- Two-digit zero-padded decimal rendering. -/
def pad2 (n : Nat) : String :=
  if n < 10 then "0" ++ toString n else toString n

/-- Four-digit zero-padded decimal rendering. -/
def pad4 (n : Nat) : String :=
  if n < 10 then "000" ++ toString n
  else if n < 100 then "00" ++ toString n
  else if n < 1000 then "0" ++ toString n
  else toString n

/-- Six-digit zero-padded decimal rendering. -/
def pad6 (n : Nat) : String :=
  if n < 10 then "00000" ++ toString n
  else if n < 100 then "0000" ++ toString n
  else if n < 1000 then "000" ++ toString n
  else if n < 10000 then "00" ++ toString n
  else if n < 100000 then "0" ++ toString n
  else toString n

/-- Python `datetime.isoformat()`: `YYYY-MM-DDTHH:MM:SS`, with a
`.ffffff` fraction appended only when the microsecond field is nonzero. -/
def isoformat (t : PyDateTime) : String :=
  pad4 t.year ++ "-" ++ pad2 t.month ++ "-" ++ pad2 t.day ++ "T"
    ++ pad2 t.hour ++ ":" ++ pad2 t.minute ++ ":" ++ pad2 t.second
    ++ (if t.microsecond = 0 then "" else "." ++ pad6 t.microsecond)

/-- A document as stored by the write path: `time` is an ISO-8601 string
(src/main.py lines 41-44). -/
structure StoredDoc where
  time : String
  total_supply : ℚ
deriving DecidableEq

/-- The document built by `add_supply_data` (src/main.py lines 39-44).
Line 39 rebinds the `timestamp` parameter to
`datetime.now().replace(microsecond=0)` before it is ever used, which the
shadowing `let` reproduces: the `timestamp` argument is dead. -/
def inserted_doc (timestamp : PyDateTime) (total_supply : ℚ)
    (now : PyDateTime) : StoredDoc :=
  let timestamp := replaceMicrosecond0 now
  { time := isoformat timestamp, total_supply := total_supply }

/-- `add_supply_data` (src/main.py lines 37-47), given the wall-clock time
`now` at the call.  Returns the Python return value (`some true` from line
45, or `none` because the function falls off the end after the `except`
branch on lines 46-47), the document handed to `insert_one`, and the error
banners shown.  When the connection handle is `None`, `insert_one` raises
`AttributeError` inside the `try` and is caught by the same `except`. -/
def add_supply_data (st : MongoStore) (timestamp : PyDateTime)
    (total_supply : ℚ) (now : PyDateTime) :
    Option Bool × StoredDoc × List String :=
  match get_mongodb_connection st with
  | (none, msgs) =>
    (none, inserted_doc timestamp total_supply now,
      msgs ++ ["Failed to add data: NoneType object has no attribute insert_one"])
  | (some conn, msgs) =>
    if conn.2 then (some true, inserted_doc timestamp total_supply now, msgs)
    else (none, inserted_doc timestamp total_supply now,
      msgs ++ ["Failed to add data"])

/-- Whether the write path can succeed in a given store state. -/
def writeSucceeds : MongoStore → Bool
  | MongoStore.store _ true => true
  | _ => false

/-- What one render of the dashboard shows (src/main.py, `main`): the four
metric tiles, the historical chart, and the data table. -/
structure DashboardRender where
  metrics : Metrics
  chart_df : List Obs
  table_df : List Obs
deriving DecidableEq

/-- The render-relevant data flow of `main` (src/main.py): `supply_df` is
fetched once (line 132); the metric tiles are `calculate_metrics(supply_df)`
(line 147); the date-range selection filters only the series handed to the
chart (lines 201-212, inclusive on both ends); the table shows the full
`supply_df` (lines 216-219). -/
def render_dashboard (supply_df : List Obs) (start_date end_date : ℤ) :
    DashboardRender :=
  { metrics := calculate_metrics supply_df
    chart_df := supply_df.filter fun p => start_date ≤ p.time ∧ p.time ≤ end_date
    table_df := supply_df }

instance : DecidableRel (fun a b : Obs => a.time ≤ b.time) :=
  fun a b => inferInstanceAs (Decidable (a.time ≤ b.time))

instance : IsTotal Obs (fun a b : Obs => a.time ≤ b.time) :=
  ⟨fun a b => le_total a.time b.time⟩

instance : IsTrans Obs (fun a b : Obs => a.time ≤ b.time) :=
  ⟨fun _ _ _ hab hbc => le_trans hab hbc⟩

/-- Helper: the Boolean `timeAscending` check is the pairwise ordering of
the timestamps. -/
theorem ta_iff : ∀ l : List Obs,
    timeAscending l = true ↔ l.Pairwise (fun a b => a.time ≤ b.time)
  | [] => by simp [timeAscending]
  | [a] => by simp [timeAscending]
  | a :: b :: rest => by
    have ih := ta_iff (b :: rest)
    constructor
    · intro h
      simp only [timeAscending, Bool.and_eq_true, decide_eq_true_eq] at h
      have hp := ih.mp h.2
      refine List.Pairwise.cons (fun x hx => ?_) hp
      rcases List.mem_cons.mp hx with hxb | hx
      · exact hxb ▸ h.1
      · exact le_trans h.1 (List.rel_of_pairwise_cons hp hx)
    · intro hp
      rcases List.pairwise_cons.mp hp with ⟨ha, hp2⟩
      simp only [timeAscending, Bool.and_eq_true, decide_eq_true_eq]
      exact ⟨ha b (List.mem_cons_self b rest), ih.mpr hp2⟩

/-- Helper: in a pairwise time-ordered list, the head has the least
timestamp. -/
theorem head_time_min (l : List Obs)
    (hp : l.Pairwise (fun a b => a.time ≤ b.time)) (b : Obs)
    (hb : l.head? = some b) : ∀ p ∈ l, b.time ≤ p.time := by
  cases l with
  | nil => simp at hb
  | cons x xs =>
    have hx : x = b := by simpa using hb
    subst hx
    intro p hpmem
    rcases List.mem_cons.mp hpmem with hpx | hmem
    · exact hpx ▸ le_refl _
    · exact List.rel_of_pairwise_cons hp hmem

/-- Helper: a nonempty list has a last element. -/
theorem exists_getLast? (df : List Obs) (h2 : 1 ≤ df.length) :
    ∃ latest, df.getLast? = some latest := by
  cases hgl : df.getLast? with
  | some l => exact ⟨l, rfl⟩
  | none =>
    rw [List.getLast?_eq_none_iff] at hgl
    subst hgl
    simp at h2

/-- Helper: when the series is nonempty, `window_df` is the filter used by
`window_change`. -/
theorem window_df_eq (df : List Obs) (latest : Obs) (w : ℤ)
    (hl : df.getLast? = some latest) :
    window_df df w = df.filter fun p => latest.time - w ≤ p.time := by
  unfold window_df
  rw [hl]

/-- Helper: the per-window block of the code computes exactly the window
change described by the specification. -/
theorem window_change_eq_spec (df : List Obs) (latest : Obs) (w : ℤ)
    (hl : df.getLast? = some latest) :
    window_change df latest.total_supply latest.time w
      = spec_window_change df w := by
  unfold window_change spec_window_change
  simp only [hl, window_df_eq df latest w hl]
  by_cases h2 : 2 ≤ (df.filter fun p => latest.time - w ≤ p.time).length
  · rw [if_pos h2, if_neg (by omega)]
    cases hh : (df.filter fun p => latest.time - w ≤ p.time).head? with
    | none => rfl
    | some b =>
      by_cases hb : b.total_supply = 0
      · simp [hb]
      · simp [hb]
  · rw [if_neg h2, if_pos (by omega)]

/-- Helper: a series with fewer than two rows yields all-zero metrics. -/
theorem calculate_metrics_lt2 (df : List Obs) (h : df.length < 2) :
    calculate_metrics df = ⟨0, 0, 0, 0⟩ := by
  unfold calculate_metrics
  rw [if_pos h]

/-- Helper: the value of `calculate_metrics` on a series of at least two
rows, in terms of the three window blocks and the total block. -/
theorem calculate_metrics_eq (df : List Obs) (latest : Obs)
    (h2 : 2 ≤ df.length) (hl : df.getLast? = some latest) :
    calculate_metrics df =
      ⟨window_change df latest.total_supply latest.time (timedelta_days 1),
        window_change df latest.total_supply latest.time (timedelta_days 7),
        window_change df latest.total_supply latest.time (timedelta_days 30),
        match df.head? with
        | none => 0
        | some first =>
          if first.total_supply ≠ 0 then
            (latest.total_supply - first.total_supply)
              / first.total_supply * 100
          else 0⟩ := by
  have hn : ¬ df.length < 2 := by omega
  have h1 : 1 < df.length := by omega
  simp only [calculate_metrics, hn, if_false, hl, h1, if_true]

/-- Helper: the zero guard in a window block makes the fallible division
safe: the exception-aware window block always succeeds, with the value the
pure block computes. -/
theorem window_changeE_ok (df : List Obs) (ls : ℚ) (lt w : ℤ) :
    window_changeE df ls lt w = Except.ok (window_change df ls lt w) := by
  unfold window_changeE window_change
  by_cases h2 : 2 ≤ (df.filter fun p => lt - w ≤ p.time).length
  · simp only [h2, if_true]
    cases hh : (df.filter fun p => lt - w ≤ p.time).head? with
    | none => rfl
    | some b =>
      by_cases hb : b.total_supply = 0
      · simp [hb]
      · simp [hb, pydiv, Except.map]
  · simp only [h2, if_false]

/-- Helper: the exception-aware metrics computation always succeeds, with
the value the pure computation produces. -/
theorem calculate_metricsE_ok (df : List Obs) :
    calculate_metricsE df = Except.ok (calculate_metrics df) := by
  unfold calculate_metricsE calculate_metrics
  by_cases hlen : df.length < 2
  · simp only [hlen, if_true]
  · simp only [hlen, if_false]
    cases hgl : df.getLast? with
    | none => rfl
    | some latest =>
      have h1 : 1 < df.length := by omega
      cases hh : df.head? with
      | none =>
        simp [window_changeE_ok, h1, hh, Except.bind]
        rfl
      | some first =>
        by_cases h0 : first.total_supply = 0
        · simp [window_changeE_ok, h1, hh, h0, Except.bind]
          rfl
        · simp [window_changeE_ok, h1, hh, h0, Except.bind, pydiv, Except.map]
          rfl

/-- Helper: a window block whose baseline (first surviving row) has zero
supply reports a zero change. -/
theorem window_change_baseline_zero (df : List Obs) (ls : ℚ) (lt w : ℤ)
    (b : Obs) (hb : (df.filter fun p => lt - w ≤ p.time).head? = some b)
    (h0 : b.total_supply = 0) : window_change df ls lt w = 0 := by
  unfold window_change
  by_cases h2 : 2 ≤ (df.filter fun p => lt - w ≤ p.time).length
  · simp only [h2, if_true, hb, h0]
    simp
  · simp only [h2, if_false]

/-- Claim C1: for every time-ascending series with at least 2 points and
every window W in 24 hours, 7 days, 30 days, `calculate_metrics` selects
`window_df` as exactly the points whose timestamp is at least
`latest_time - W` (`latest_time` the timestamp of the last point), reports
0 if `window_df` has fewer than 2 points, and otherwise reports
`(latest.total_supply - baseline.total_supply) / baseline.total_supply *
100` where the baseline is the chronologically first point of `window_df`
(the head of `window_df`, which has the least timestamp). -/
theorem c1_window_selection_and_change (df : List Obs)
    (hasc : timeAscending df = true) (h2 : 2 ≤ df.length) :
    ((calculate_metrics df).h24 = spec_window_change df (timedelta_days 1)
      ∧ (calculate_metrics df).d7 = spec_window_change df (timedelta_days 7)
      ∧ (calculate_metrics df).d30 = spec_window_change df (timedelta_days 30))
    ∧ (∀ (w : ℤ) (latest : Obs), df.getLast? = some latest →
        ∀ p : Obs, p ∈ window_df df w ↔ p ∈ df ∧ latest.time - w ≤ p.time)
    ∧ (∀ (w : ℤ) (b : Obs), (window_df df w).head? = some b →
        ∀ p ∈ window_df df w, b.time ≤ p.time) := by
  obtain ⟨latest, hl⟩ := exists_getLast? df (by omega)
  have hcm := calculate_metrics_eq df latest h2 hl
  refine ⟨⟨?_, ?_, ?_⟩, ?_, ?_⟩
  · rw [hcm]
    exact window_change_eq_spec df latest _ hl
  · rw [hcm]
    exact window_change_eq_spec df latest _ hl
  · rw [hcm]
    exact window_change_eq_spec df latest _ hl
  · intro w latest2 hl2 p
    rw [window_df_eq df latest2 w hl2]
    simp [List.mem_filter]
  · intro w b hb p hp
    have hpair := (ta_iff df).mp hasc
    rw [window_df_eq df latest w hl] at hb hp
    exact head_time_min _ (hpair.filter _) b hb p hp

/-- Witness for C1 at the concrete series with points 40, 10 and 3 days
before the last point (supplies 1000, 900, 850, 820). -/
theorem c1_witness :
    timeAscending [⟨-3456000000000, 1000⟩, ⟨-864000000000, 900⟩,
        ⟨-259200000000, 850⟩, ⟨0, 820⟩] = true
    ∧ 2 ≤ ([⟨-3456000000000, 1000⟩, ⟨-864000000000, 900⟩,
        ⟨-259200000000, 850⟩, ⟨0, 820⟩] : List Obs).length
    ∧ (calculate_metrics [⟨-3456000000000, 1000⟩, ⟨-864000000000, 900⟩,
        ⟨-259200000000, 850⟩, ⟨0, 820⟩]).h24
      = spec_window_change [⟨-3456000000000, 1000⟩, ⟨-864000000000, 900⟩,
        ⟨-259200000000, 850⟩, ⟨0, 820⟩] (timedelta_days 1)
    ∧ (calculate_metrics [⟨-3456000000000, 1000⟩, ⟨-864000000000, 900⟩,
        ⟨-259200000000, 850⟩, ⟨0, 820⟩]).d7
      = spec_window_change [⟨-3456000000000, 1000⟩, ⟨-864000000000, 900⟩,
        ⟨-259200000000, 850⟩, ⟨0, 820⟩] (timedelta_days 7)
    ∧ (calculate_metrics [⟨-3456000000000, 1000⟩, ⟨-864000000000, 900⟩,
        ⟨-259200000000, 850⟩, ⟨0, 820⟩]).d30
      = spec_window_change [⟨-3456000000000, 1000⟩, ⟨-864000000000, 900⟩,
        ⟨-259200000000, 850⟩, ⟨0, 820⟩] (timedelta_days 30) :=
  ⟨by decide, by decide,
    (c1_window_selection_and_change _ (by decide) (by decide)).1.1,
    (c1_window_selection_and_change _ (by decide) (by decide)).1.2.1,
    (c1_window_selection_and_change _ (by decide) (by decide)).1.2.2⟩

/-- Claim C2 (code bug): the write path does NOT round-trip the
observation's timestamp.  `add_supply_data` discards its `timestamp`
argument (src/main.py line 39 rebinds it to `datetime.now()`), so the
stored document carries the wall-clock time of the call, not the
observation's own timestamp: calling it with timestamp
2024-01-01T00:00:00 at wall-clock 2024-06-15T12:30:45.123456 stores the
time string "2024-06-15T12:30:45".  The supply value does round-trip. -/
theorem c2_roundtrip_timestamp_broken :
    (inserted_doc ⟨2024, 1, 1, 0, 0, 0, 0⟩ 100
        ⟨2024, 6, 15, 12, 30, 45, 123456⟩).time = "2024-06-15T12:30:45"
    ∧ (inserted_doc ⟨2024, 1, 1, 0, 0, 0, 0⟩ 100
        ⟨2024, 6, 15, 12, 30, 45, 123456⟩).time
      ≠ isoformat ⟨2024, 1, 1, 0, 0, 0, 0⟩
    ∧ (inserted_doc ⟨2024, 1, 1, 0, 0, 0, 0⟩ 100
        ⟨2024, 6, 15, 12, 30, 45, 123456⟩).total_supply = 100 :=
  ⟨rfl, by decide, rfl⟩

/-- Claim C3 (code bug): when the connection attempt fails,
`get_mongodb_connection` catches the exception, shows an error banner and
returns `None` — but `get_supply_data` then calls `.find()` on `None`,
which raises `AttributeError` and aborts the read instead of returning an
empty sequence. -/
theorem c3_read_crashes_when_unreachable :
    get_supply_data MongoStore.connFail
      = (Except.error "AttributeError: NoneType object has no attribute find",
          ["Failed to connect to MongoDB"]) :=
  rfl

/-- Claim C4: on an empty or single-point series, `calculate_metrics`
returns all four metrics equal to 0. -/
theorem c4_short_series_all_zero (df : List Obs) (h : df.length < 2) :
    calculate_metrics df = ⟨0, 0, 0, 0⟩ :=
  calculate_metrics_lt2 df h

/-- Witness for C4 at the empty series and at a one-point series. -/
theorem c4_witness :
    ([] : List Obs).length < 2 ∧ calculate_metrics [] = ⟨0, 0, 0, 0⟩
    ∧ ([⟨0, 100⟩] : List Obs).length < 2
    ∧ calculate_metrics [⟨0, 100⟩] = ⟨0, 0, 0, 0⟩ :=
  ⟨by decide, c4_short_series_all_zero [] (by decide), by decide,
    c4_short_series_all_zero [⟨0, 100⟩] (by decide)⟩

/-- Claim C5: on a time-ascending series of at least 2 points, the total
change uses the globally first point as baseline:
`(latest.total_supply - first.total_supply) / first.total_supply * 100`,
or 0 when the first point's supply is 0. -/
theorem c5_total_change_spec (df : List Obs) (first latest : Obs)
    (hasc : timeAscending df = true) (h2 : 2 ≤ df.length)
    (hf : df.head? = some first) (hl : df.getLast? = some latest) :
    (calculate_metrics df).total =
      if first.total_supply = 0 then 0
      else (latest.total_supply - first.total_supply)
        / first.total_supply * 100 := by
  rw [calculate_metrics_eq df latest h2 hl]
  by_cases h0 : first.total_supply = 0
  · simp [hf, h0]
  · simp [hf, h0]

/-- Witness for C5 at a two-point series one day apart (supplies 100, 90). -/
theorem c5_witness :
    timeAscending [⟨0, 100⟩, ⟨86400000000, 90⟩] = true
    ∧ 2 ≤ ([⟨0, 100⟩, ⟨86400000000, 90⟩] : List Obs).length
    ∧ ([⟨0, 100⟩, ⟨86400000000, 90⟩] : List Obs).head? = some ⟨0, 100⟩
    ∧ ([⟨0, 100⟩, ⟨86400000000, 90⟩] : List Obs).getLast?
        = some ⟨86400000000, 90⟩
    ∧ (calculate_metrics [⟨0, 100⟩, ⟨86400000000, 90⟩]).total =
        (if (100 : ℚ) = 0 then 0 else ((90 : ℚ) - 100) / 100 * 100) :=
  ⟨by decide, by decide, by decide, by decide,
    c5_total_change_spec _ ⟨0, 100⟩ ⟨86400000000, 90⟩
      (by decide) (by decide) (by decide) (by decide)⟩

/-- Claim C6: the metrics computation never raises a division-by-zero
exception (the exception-aware computation always returns `ok` with the
pure value), and whenever the selected baseline of a window — or the first
point, for the lifetime metric — has zero supply, that metric is reported
as 0. -/
theorem c6_zero_baseline_guard (df : List Obs) :
    calculate_metricsE df = Except.ok (calculate_metrics df)
    ∧ (∀ b : Obs, (window_df df (timedelta_days 1)).head? = some b →
        b.total_supply = 0 → (calculate_metrics df).h24 = 0)
    ∧ (∀ b : Obs, (window_df df (timedelta_days 7)).head? = some b →
        b.total_supply = 0 → (calculate_metrics df).d7 = 0)
    ∧ (∀ b : Obs, (window_df df (timedelta_days 30)).head? = some b →
        b.total_supply = 0 → (calculate_metrics df).d30 = 0)
    ∧ (∀ b : Obs, df.head? = some b → b.total_supply = 0 →
        (calculate_metrics df).total = 0) := by
  have hE := calculate_metricsE_ok df
  by_cases hlen : df.length < 2
  · have hz := calculate_metrics_lt2 df hlen
    refine ⟨hE, ?_, ?_, ?_, ?_⟩ <;> intro b hb h0 <;> simp [hz]
  · obtain ⟨latest, hl⟩ := exists_getLast? df (by omega)
    have hcm := calculate_metrics_eq df latest (by omega) hl
    refine ⟨hE, ?_, ?_, ?_, ?_⟩
    · intro b hb h0
      rw [hcm]
      exact window_change_baseline_zero df _ _ _ b
        (by rwa [window_df_eq df latest _ hl] at hb) h0
    · intro b hb h0
      rw [hcm]
      exact window_change_baseline_zero df _ _ _ b
        (by rwa [window_df_eq df latest _ hl] at hb) h0
    · intro b hb h0
      rw [hcm]
      exact window_change_baseline_zero df _ _ _ b
        (by rwa [window_df_eq df latest _ hl] at hb) h0
    · intro b hb h0
      rw [hcm]
      simp [hb, h0]

/-- Witness for C6 at the series [(t0, 0), (t1, 50)] with t1 one hour after
t0, hence inside every window: every metric is 0 and the exception-aware
computation succeeds. -/
theorem c6_witness :
    ((window_df [⟨0, 0⟩, ⟨3600000000, 50⟩] (timedelta_days 1)).head?
        = some ⟨0, 0⟩)
    ∧ (calculate_metrics [⟨0, 0⟩, ⟨3600000000, 50⟩]).h24 = 0
    ∧ (calculate_metrics [⟨0, 0⟩, ⟨3600000000, 50⟩]).d7 = 0
    ∧ (calculate_metrics [⟨0, 0⟩, ⟨3600000000, 50⟩]).d30 = 0
    ∧ (calculate_metrics [⟨0, 0⟩, ⟨3600000000, 50⟩]).total = 0
    ∧ calculate_metricsE [⟨0, 0⟩, ⟨3600000000, 50⟩]
        = Except.ok (calculate_metrics [⟨0, 0⟩, ⟨3600000000, 50⟩]) :=
  ⟨by decide,
    (c6_zero_baseline_guard _).2.1 ⟨0, 0⟩ (by decide) rfl,
    (c6_zero_baseline_guard _).2.2.1 ⟨0, 0⟩ (by decide) rfl,
    (c6_zero_baseline_guard _).2.2.2.1 ⟨0, 0⟩ (by decide) rfl,
    (c6_zero_baseline_guard _).2.2.2.2 ⟨0, 0⟩ (by decide) rfl,
    (c6_zero_baseline_guard _).1⟩

/-- Claim C7 as stated is false: on a failed write `add_supply_data` does
not return the boolean `False`; it falls off the end of the function and
returns `None` (counterexample at a store whose connection attempt
fails). -/
theorem c7_counterexample :
    (add_supply_data MongoStore.connFail ⟨2024, 1, 1, 0, 0, 0, 0⟩ 100
        ⟨2024, 1, 1, 0, 0, 0, 0⟩).1 = none
    ∧ (add_supply_data MongoStore.connFail ⟨2024, 1, 1, 0, 0, 0, 0⟩ 100
        ⟨2024, 1, 1, 0, 0, 0, 0⟩).1 ≠ some false :=
  ⟨rfl, by decide⟩

/-- Claim C7, amended: on a successful single-document insert
`add_supply_data` returns `True`; whenever the write fails for any reason
it surfaces an error and returns `None` (a falsy value, but not the
boolean `False`). -/
theorem c7_write_result (st : MongoStore) (t : PyDateTime) (s : ℚ)
    (now : PyDateTime) :
    (writeSucceeds st = true → (add_supply_data st t s now).1 = some true)
    ∧ (writeSucceeds st = false → (add_supply_data st t s now).1 = none) := by
  cases st with
  | connFail =>
    exact ⟨fun h => by simp [writeSucceeds] at h, fun _ => rfl⟩
  | store docs insertOk =>
    cases insertOk with
    | true => exact ⟨fun _ => rfl, fun h => by simp [writeSucceeds] at h⟩
    | false => exact ⟨fun h => by simp [writeSucceeds] at h, fun _ => rfl⟩

/-- Witness for the amended C7: a successful write returns `some true`, a
failed one returns `none`. -/
theorem c7_witness :
    writeSucceeds (MongoStore.store [] true) = true
    ∧ (add_supply_data (MongoStore.store [] true) ⟨2024, 1, 1, 0, 0, 0, 0⟩
        100 ⟨2024, 1, 1, 0, 0, 0, 0⟩).1 = some true
    ∧ writeSucceeds MongoStore.connFail = false
    ∧ (add_supply_data MongoStore.connFail ⟨2024, 1, 1, 0, 0, 0, 0⟩
        100 ⟨2024, 1, 1, 0, 0, 0, 0⟩).1 = none :=
  ⟨rfl,
    (c7_write_result (MongoStore.store [] true) ⟨2024, 1, 1, 0, 0, 0, 0⟩
      100 ⟨2024, 1, 1, 0, 0, 0, 0⟩).1 rfl,
    rfl,
    (c7_write_result MongoStore.connFail ⟨2024, 1, 1, 0, 0, 0, 0⟩
      100 ⟨2024, 1, 1, 0, 0, 0, 0⟩).2 rfl⟩

/-- Claim C8: whatever the store contains, any sequence returned by
`get_supply_data` is sorted ascending by timestamp. -/
theorem c8_fetch_sorted (st : MongoStore) (out : List Obs)
    (h : (get_supply_data st).1 = Except.ok out) :
    timeAscending out = true := by
  cases st with
  | connFail => simp [get_supply_data, get_mongodb_connection] at h
  | store docs insertOk =>
    cases docs with
    | nil =>
      simp only [get_supply_data, get_mongodb_connection,
        Except.ok.injEq] at h
      subst h
      rfl
    | cons d ds =>
      simp only [get_supply_data, get_mongodb_connection,
        Except.ok.injEq] at h
      subst h
      exact (ta_iff _).mpr
        (List.sorted_insertionSort (fun a b : Obs => a.time ≤ b.time) (d :: ds))

/-- Witness for C8 at a store holding two out-of-order documents. -/
theorem c8_witness :
    (get_supply_data (MongoStore.store [⟨2, 20⟩, ⟨1, 10⟩] true)).1
        = Except.ok [⟨1, 10⟩, ⟨2, 20⟩]
    ∧ timeAscending [⟨1, 10⟩, ⟨2, 20⟩] = true :=
  ⟨rfl, c8_fetch_sorted (MongoStore.store [⟨2, 20⟩, ⟨1, 10⟩] true)
    [⟨1, 10⟩, ⟨2, 20⟩] rfl⟩

/-- Claim C9: the metric tiles are computed from the full unfiltered
series fetched from the store, and are unchanged by the date-range filter
selection (which only affects the chart). -/
theorem c9_filter_never_changes_metrics (supply_df : List Obs)
    (s1 e1 s2 e2 : ℤ) :
    (render_dashboard supply_df s1 e1).metrics = calculate_metrics supply_df
    ∧ (render_dashboard supply_df s1 e1).metrics
        = (render_dashboard supply_df s2 e2).metrics :=
  ⟨rfl, rfl⟩

/-- Claim C10: the document inserted by `add_supply_data` does not depend
on its `timestamp` parameter — two calls with the same supply at the same
wall-clock instant insert identical documents, whose `time` field is the
wall-clock time with microseconds zeroed, serialized with `isoformat`. -/
theorem c10_insert_ignores_timestamp (st : MongoStore)
    (t1 t2 : PyDateTime) (s : ℚ) (now : PyDateTime) :
    (add_supply_data st t1 s now).2.1 = (add_supply_data st t2 s now).2.1
    ∧ (add_supply_data st t1 s now).2.1
        = ⟨isoformat (replaceMicrosecond0 now), s⟩ := by
  refine ⟨?_, ?_⟩ <;>
    cases st with
    | connFail => rfl
    | store docs insertOk => cases insertOk <;> rfl
